import Mathlib

set_option maxRecDepth 8000

/-!
Verification development for the Amap mapping-tool subsystem
(`src/tools/amap.py` of the omnara-mcp-server repository).

The Python code is shallowly embedded: pure text/format logic is translated
directly; the upstream HTTP calls are modelled by oracle parameters (an
`Option` record standing for "the attempt produced a usable first result"),
and the list of upstream calls a function would issue is returned
explicitly so that "zero upstream calls" is a statable property.
-/

namespace Omnara

def AMAP_API_HOST : String := "https://restapi.amap.com/v3"

def AMAP_API_HOST_V4 : String := "https://restapi.amap.com/v4"

/-! ### The coordinate-literal pattern

`_resolve_location` tests `re.match(r'^-?\d+(\.\d+)?,-?\d+(\.\d+)?$', input_str.strip())`.
We embed the regex as a deterministic parser over the character list (the
pattern is deterministic: no backtracking alternative can succeed, since `.`
and `,` are not digits).  Python's `\d` also covers non-ASCII Unicode
digits; as in every coordinate use here, we model the ASCII digits. -/

/-- Characters that can occur in a string matched by the coordinate regex. -/
def coordChar (c : Char) : Bool := c.isDigit || c = '-' || c = '.' || c = ','

/-- `\d+` : one or more digits, greedily consumed. -/
def parseDigits (cs : List Char) : Option (List Char) :=
  match cs with
  | c :: r => if c.isDigit then some (r.dropWhile Char.isDigit) else none
  | [] => none

/-- `(\.\d+)?` : an optional fraction part, greedily consumed. -/
def parseFrac (cs : List Char) : List Char :=
  match cs with
  | c :: r2 =>
    if c = '.' then
      match parseDigits r2 with
      | some r3 => r3
      | none => c :: r2
    else c :: r2
  | [] => []

/-- `-?` : an optional leading minus sign. -/
def stripMinus (cs : List Char) : List Char :=
  match cs with
  | c :: r => if c = '-' then r else c :: r
  | [] => []

/-- `-?\d+(\.\d+)?` : one signed decimal number. -/
def parseNum (cs : List Char) : Option (List Char) :=
  match parseDigits (stripMinus cs) with
  | some rest => some (parseFrac rest)
  | none => none

/-- `^-?\d+(\.\d+)?,-?\d+(\.\d+)?$` : the full coordinate-literal pattern. -/
def matchesCoord (cs : List Char) : Bool :=
  match parseNum cs with
  | none => false
  | some rest =>
    match rest with
    | [] => false
    | c :: rest2 => c == ',' && parseNum rest2 == some []

/-- Python's `str.strip()` (over the ASCII whitespace the inputs here use). -/
def pyStripList (cs : List Char) : List Char :=
  ((cs.dropWhile Char.isWhitespace).reverse.dropWhile Char.isWhitespace).reverse

/-- `str.strip()` lifted to `String`. -/
def pyStrip (s : String) : String := String.mk (pyStripList s.data)

theorem dropWhile_eq_self_of_forall {p : Char → Bool} {cs : List Char}
    (h : ∀ c ∈ cs, p c = false) : cs.dropWhile p = cs := by
  cases cs with
  | nil => rfl
  | cons a l =>
    rw [List.dropWhile_cons, h a (List.mem_cons_self a l)]
    simp

theorem coordChar_not_whitespace {c : Char} (h : coordChar c = true) :
    c.isWhitespace = false := by
  cases hw : c.isWhitespace
  · rfl
  · exfalso
    have hw2 : ((c = ' ' ∨ c = '\t') ∨ c = '\x0d') ∨ c = '\n' := by
      simpa [Char.isWhitespace] using hw
    rcases hw2 with ((h1 | h1) | h1) | h1 <;> subst h1 <;> exact absurd h (by decide)

theorem parseDigits_decomp {cs rest : List Char} (h : parseDigits cs = some rest) :
    ∃ pre, cs = pre ++ rest ∧ ∀ c ∈ pre, c.isDigit = true := by
  cases cs with
  | nil => simp [parseDigits] at h
  | cons a l =>
    by_cases ha : a.isDigit
    · simp only [parseDigits, ha, if_pos, Option.some.injEq] at h
      subst h
      refine ⟨a :: l.takeWhile Char.isDigit, ?_, ?_⟩
      · simp [List.takeWhile_append_dropWhile]
      · intro c hc
        rcases List.mem_cons.mp hc with h1 | h1
        · subst h1; exact ha
        · exact List.mem_takeWhile_imp h1
    · simp [parseDigits, ha] at h

theorem parseFrac_decomp (cs : List Char) :
    ∃ pre, cs = pre ++ parseFrac cs ∧ ∀ c ∈ pre, coordChar c = true := by
  cases cs with
  | nil => exact ⟨[], rfl, by simp⟩
  | cons a r2 =>
    by_cases ha : a = '.'
    · subst ha
      cases hpd : parseDigits r2 with
      | none =>
        refine ⟨[], ?_, by simp⟩
        simp [parseFrac, hpd]
      | some r3 =>
        obtain ⟨pre2, hpre2, hall2⟩ := parseDigits_decomp hpd
        have hval : parseFrac ('.' :: r2) = r3 := by simp [parseFrac, hpd]
        refine ⟨'.' :: pre2, ?_, ?_⟩
        · rw [hval, hpre2]
          rfl
        · intro c hc
          rcases List.mem_cons.mp hc with h1 | h1
          · subst h1; decide
          · simp [coordChar, hall2 c h1]
    · refine ⟨[], ?_, by simp⟩
      simp [parseFrac, ha]

theorem stripMinus_decomp (cs : List Char) :
    ∃ pre, cs = pre ++ stripMinus cs ∧ ∀ c ∈ pre, coordChar c = true := by
  cases cs with
  | nil => exact ⟨[], rfl, by simp⟩
  | cons a l =>
    by_cases ha : a = '-'
    · subst ha
      refine ⟨['-'], ?_, ?_⟩
      · simp [stripMinus]
      · intro c hc
        rw [List.mem_singleton] at hc
        subst hc
        decide
    · refine ⟨[], ?_, by simp⟩
      simp [stripMinus, ha]

theorem parseNum_decomp {cs rest : List Char} (h : parseNum cs = some rest) :
    ∃ pre, cs = pre ++ rest ∧ ∀ c ∈ pre, coordChar c = true := by
  cases hpd : parseDigits (stripMinus cs) with
  | none => simp [parseNum, hpd] at h
  | some r0 =>
    have h2 : parseFrac r0 = rest := by simpa [parseNum, hpd] using h
    obtain ⟨p0, hp0, hall0⟩ := stripMinus_decomp cs
    obtain ⟨p1, hp1, hall1⟩ := parseDigits_decomp hpd
    obtain ⟨p2, hp2, hall2⟩ := parseFrac_decomp r0
    refine ⟨p0 ++ p1 ++ p2, ?_, ?_⟩
    · calc cs = p0 ++ stripMinus cs := hp0
        _ = p0 ++ (p1 ++ r0) := by rw [hp1]
        _ = p0 ++ (p1 ++ (p2 ++ parseFrac r0)) := by rw [← hp2]
        _ = p0 ++ (p1 ++ (p2 ++ rest)) := by rw [h2]
        _ = (p0 ++ p1 ++ p2) ++ rest := by simp [List.append_assoc]
    · intro c hc
      rcases List.mem_append.mp hc with h1 | h1
      · rcases List.mem_append.mp h1 with h3 | h3
        · exact hall0 c h3
        · simp [coordChar, hall1 c h3]
      · exact hall2 c h1

theorem matchesCoord_spec {cs : List Char} (h : matchesCoord cs = true) :
    ∃ rest2, parseNum cs = some (',' :: rest2) ∧ parseNum rest2 = some [] := by
  cases hpn : parseNum cs with
  | none => simp [matchesCoord, hpn] at h
  | some rest =>
    cases rest with
    | nil => simp [matchesCoord, hpn] at h
    | cons c0 rest2 =>
      have h2 : ((c0 == ',') && (parseNum rest2 == some [])) = true := by
        simpa [matchesCoord, hpn] using h
      simp only [Bool.and_eq_true, beq_iff_eq] at h2
      obtain ⟨hc, hp2⟩ := h2
      subst hc
      exact ⟨rest2, rfl, hp2⟩

theorem matchesCoord_chars {cs : List Char} (h : matchesCoord cs = true) :
    ∀ c ∈ cs, coordChar c = true := by
  obtain ⟨rest2, hpn, hpn2⟩ := matchesCoord_spec h
  obtain ⟨pre1, hpre1, hall1⟩ := parseNum_decomp hpn
  obtain ⟨pre2, hpre2, hall2⟩ := parseNum_decomp hpn2
  intro c hc
  rw [hpre1] at hc
  rcases List.mem_append.mp hc with h1 | h1
  · exact hall1 c h1
  · rcases List.mem_cons.mp h1 with h2 | h2
    · subst h2; decide
    · rw [hpre2] at h2
      rcases List.mem_append.mp h2 with h3 | h3
      · exact hall2 c h3
      · simp at h3

theorem pyStripList_eq_self {cs : List Char}
    (h : ∀ c ∈ cs, c.isWhitespace = false) : pyStripList cs = cs := by
  unfold pyStripList
  rw [dropWhile_eq_self_of_forall h]
  rw [dropWhile_eq_self_of_forall (by intro c hc; exact h c (List.mem_reverse.mp hc))]
  exact List.reverse_reverse cs

theorem pyStrip_of_matchesCoord {s : String} (h : matchesCoord s.data = true) :
    pyStrip s = s := by
  apply String.ext
  show pyStripList s.data = s.data
  exact pyStripList_eq_self (fun c hc => coordChar_not_whitespace (matchesCoord_chars h c hc))

theorem matchesCoord_ne_empty {s : String} (h : matchesCoord s.data = true) :
    s ≠ "" := by
  intro hs
  subst hs
  exact absurd h (by decide)

/-! ### LocationResolver (`_resolve_location`)

The two upstream attempts (geocoding, POI text search) are modelled by
oracle parameters: `some r` means "the HTTP call returned 200 with upstream
status 1 and a non-empty result list whose first element is `r`"; `none`
means the attempt failed in any of the ways the Python code swallows
(transport error, non-200, status ≠ 1, missing/empty result list).  The
second component of the result is the list of upstream calls issued. -/

/-- First geocode record (`resp.json()["geocodes"][0]`), fields via `.get`. -/
structure GeoRecord where
  location : Option String := none
  adcode : Option String := none
  formatted_address : Option String := none
deriving DecidableEq

/-- First POI record (`resp.json()["pois"][0]`), fields via `.get`. -/
structure PoiRecord where
  location : Option String := none
  adcode : Option String := none
  name : Option String := none
deriving DecidableEq

/-- An upstream HTTP call issued by the resolver. -/
inductive UpstreamCall where
  | geocodeGeo (address : String) (city : Option String)
  | placeText (keywords : String) (citylimit : String) (city : Option String)
deriving DecidableEq

/-- The `(location, adcode, display name)` triple `_resolve_location` returns. -/
structure Resolved where
  loc : Option String
  adcode : Option String
  name : Option String
deriving DecidableEq

/-- `_resolve_location(client, input_str, city)`. -/
def resolveLocation (geo : Option GeoRecord) (poi : Option PoiRecord)
    (input : String) (city : Option String) : Resolved × List UpstreamCall :=
  if input = "" then (⟨none, none, none⟩, [])
  else if matchesCoord (pyStrip input).data then
    (⟨some (pyStrip input), none, some input⟩, [])
  else
    let geoCall := UpstreamCall.geocodeGeo input city
    match geo with
    | some g => (⟨g.location, g.adcode, g.formatted_address⟩, [geoCall])
    | none =>
      let poiCall := UpstreamCall.placeText input
        (if city.isSome then "true" else "false") city
      match poi with
      | some p => (⟨p.location, p.adcode, p.name⟩, [geoCall, poiCall])
      | none => (⟨none, none, some input⟩, [geoCall, poiCall])

theorem resolveLocation_coord (geo : Option GeoRecord) (poi : Option PoiRecord)
    (city : Option String) {input : String} (h : matchesCoord input.data = true) :
    resolveLocation geo poi input city = (⟨some input, none, some input⟩, []) := by
  have hne : input ≠ "" := matchesCoord_ne_empty h
  have hs : pyStrip input = input := pyStrip_of_matchesCoord h
  unfold resolveLocation
  rw [if_neg hne, hs, if_pos h]

/-- Claim C2: an input matching the signed-decimal-pair coordinate pattern is
returned verbatim as the coordinate, with no administrative code, with the
original input as the display name, and with zero upstream calls issued. -/
theorem resolve_coordinate_literal (geo : Option GeoRecord) (poi : Option PoiRecord)
    (city : Option String) (input : String) (h : matchesCoord input.data = true) :
    resolveLocation geo poi input city = (⟨some input, none, some input⟩, []) :=
  resolveLocation_coord geo poi city h

theorem resolve_coordinate_literal_witness :
    resolveLocation none none "116.41,39.92" none =
      (⟨some "116.41,39.92", none, some "116.41,39.92"⟩, []) :=
  resolve_coordinate_literal none none none "116.41,39.92" (by decide)

/-- Claim C3: when the input is non-empty, is not a coordinate literal, and
both the geocoding attempt and the POI fallback fail, the resolver returns a
failure value: no coordinate, no administrative code, and the original input
as the display name (the function is total — no exception escapes). -/
theorem resolve_double_failure (input : String) (city : Option String)
    (h1 : input ≠ "") (h2 : matchesCoord (pyStrip input).data = false) :
    (resolveLocation none none input city).1 = ⟨none, none, some input⟩ := by
  unfold resolveLocation
  rw [if_neg h1, if_neg (by simp [h2])]

theorem resolve_double_failure_witness :
    (resolveLocation none none "某不存在的地点xyz123" none).1 =
      ⟨none, none, some "某不存在的地点xyz123"⟩ :=
  resolve_double_failure "某不存在的地点xyz123" none (by decide) (by decide)

/-- Claim C10: the empty-string input short-circuits with coordinate,
administrative code and display name all absent and zero upstream calls,
unlike every other unresolvable input, whose failure carries the original
input as its display name. -/
theorem resolve_empty_input (geo : Option GeoRecord) (poi : Option PoiRecord)
    (city : Option String) :
    resolveLocation geo poi "" city = (⟨none, none, none⟩, []) ∧
    (∀ input : String, input ≠ "" → matchesCoord (pyStrip input).data = false →
      ((resolveLocation none none input city).1).name = some input) := by
  constructor
  · rfl
  · intro input h1 h2
    unfold resolveLocation
    rw [if_neg h1, if_neg (by simp [h2])]

theorem resolve_empty_input_witness :
    ((resolveLocation none none "不存在xyz" (some "北京")).1).name = some "不存在xyz" :=
  (resolve_empty_input none none (some "北京")).2 "不存在xyz" (by decide) (by decide)

/-! ### Text formatting helpers -/

/-- `_fmt_time`: seconds to readable time. -/
def fmtTime (seconds : Nat) : String :=
  let m := seconds / 60
  if m < 60 then toString m ++ "分钟"
  else toString (m / 60) ++ "小时" ++ toString (m % 60) ++ "分钟"

/-- `_fmt_dist`: metres to readable distance.  Python formats `m/1000` with
one decimal over floats; we model integral metre counts, rounding the single
decimal half-up (no claim depends on the tie-breaking of the float). -/
def fmtDist (meters : Nat) : String :=
  if meters < 1000 then toString meters ++ "米"
  else
    let tenths := (meters + 50) / 100
    toString (tenths / 10) ++ "." ++ toString (tenths % 10) ++ "公里"

/-- Python's `sep.join(lines)`. -/
def pyJoin (sep : String) : List String → String
  | [] => ""
  | [a] => a
  | a :: b :: rest => a ++ sep ++ pyJoin sep (b :: rest)

/-- Python's `str(x)` on an optional value: `None` renders as `"None"`. -/
def pyShowOpt : Option String → String
  | none => "None"
  | some s => s

/-- Substring test, Python's `needle in haystack`. -/
def strIn (needle hay : String) : Bool := decide (needle.data <:+: hay.data)

/-- Prefix test on strings (used only in theorem statements). -/
def strStarts (p s : String) : Bool := p.data.isPrefixOf s.data

theorem isPrefixOf_self_append (l t : List Char) : l.isPrefixOf (l ++ t) = true := by
  induction l with
  | nil => simp [List.isPrefixOf]
  | cons a l ih => simp [List.isPrefixOf, ih]

theorem strStarts_append (p t : String) : strStarts p (p ++ t) = true := by
  unfold strStarts
  rw [String.data_append]
  exact isPrefixOf_self_append p.data t.data

/-! ### NavigationNarrator (`_format_nav_text`) -/

/-- One raw upstream navigation step (dict fields via `.get` with defaults;
`distance` is the string field after Python's `int(...)` conversion). -/
structure PathStep where
  instruction : String := ""
  road : String := ""
  distance : Nat := 0
  action : String := ""
  assistant_action : String := ""
deriving DecidableEq

/-- One raw upstream path (dict fields via `.get` with the code's defaults). -/
structure PathData where
  duration : Nat := 0
  distance : Nat := 0
  traffic_lights : String := "0"
  tolls : String := "0"
  restriction : Option String := none
  steps : List PathStep := []
deriving DecidableEq

/-- Road-name enrichment: `if road and road not in instr: ...`. -/
def roadStage (s : PathStep) : String :=
  if s.road ≠ "" ∧ strIn s.road s.instruction = false then
    if strIn "向" s.instruction = true then s.instruction ++ " (沿" ++ s.road ++ ")"
    else s.instruction ++ "，沿" ++ s.road ++ "行驶"
  else s.instruction

/-- Distance completion: `if "米" not in desc and "公里" not in desc and int(dist_val) > 0`. -/
def distStage (s : PathStep) (desc : String) : String :=
  if strIn "米" desc = false ∧ strIn "公里" desc = false ∧ 0 < s.distance then
    desc ++ " " ++ toString s.distance ++ "米"
  else desc

/-- Assistant-action completion: `if assistant: desc += f" ({assistant})"`. -/
def assistStage (s : PathStep) (desc : String) : String :=
  if s.assistant_action ≠ "" then desc ++ " (" ++ s.assistant_action ++ ")" else desc

/-- Full enrichment of one step, as `_format_nav_text` performs it in order. -/
def enrichStep (s : PathStep) : String := assistStage s (distStage s (roadStage s))

/-- The title line of `_format_nav_text`: mode icon plus mode tag. -/
def navTitle (mode : String) : String :=
  (if mode = "driving" then "🚗" else if mode = "walking" then "🚶" else "🚲") ++
    " 【" ++ mode ++ "导航】"

/-- The summary line of `_format_nav_text` (driving adds lights, tolls and
the restriction warning). -/
def navSummary (mode : String) (p : PathData) : String :=
  let summary0 := "总耗时: " ++ fmtTime p.duration ++ " | 总距离: " ++ fmtDist p.distance
  if mode = "driving" then
    let s1 := summary0 ++ " | 红绿灯: " ++ p.traffic_lights ++ "个 | 过路费: " ++ p.tolls ++ "元"
    if p.restriction = some "1" then s1 ++ " (⚠️含限行区域)" else s1
  else summary0

/-- `_format_nav_text(mode, path_data)`. -/
def formatNavText (mode : String) (p : PathData) : String :=
  pyJoin "\n" (navTitle mode :: navSummary mode p :: "--------------------" ::
    "📝 详细路线:" ::
    p.steps.enum.map (fun pr => toString (pr.1 + 1) ++ ". " ++ enrichStep pr.2))

/-- Claim C6: per-step enrichment.  The road name is appended only when it is
non-empty and not already a substring of the instruction — parenthesised
after a directional cue (`向`), as a trailing clause otherwise; the
`<distance>米` suffix is appended exactly when the road-enriched text
contains neither `米` nor `公里` and the distance is positive — in
particular it is never appended when the enriched text already carries a
distance token; a present assistant action is appended in parentheses. -/
theorem nav_step_enrichment (s : PathStep) :
    (s.road ≠ "" → strIn s.road s.instruction = false → strIn "向" s.instruction = true →
      roadStage s = s.instruction ++ " (沿" ++ s.road ++ ")") ∧
    (s.road ≠ "" → strIn s.road s.instruction = false → strIn "向" s.instruction = false →
      roadStage s = s.instruction ++ "，沿" ++ s.road ++ "行驶") ∧
    (s.road = "" ∨ strIn s.road s.instruction = true → roadStage s = s.instruction) ∧
    (∀ d : String, strIn "米" d = true ∨ strIn "公里" d = true ∨ s.distance = 0 →
      distStage s d = d) ∧
    (∀ d : String, strIn "米" d = false → strIn "公里" d = false → 0 < s.distance →
      distStage s d = d ++ " " ++ toString s.distance ++ "米") ∧
    (s.assistant_action ≠ "" →
      enrichStep s = distStage s (roadStage s) ++ " (" ++ s.assistant_action ++ ")") ∧
    (s.assistant_action = "" → enrichStep s = distStage s (roadStage s)) := by
  refine ⟨?_, ?_, ?_, ?_, ?_, ?_, ?_⟩
  · intro h1 h2 h3
    rw [roadStage, if_pos ⟨h1, h2⟩, if_pos h3]
  · intro h1 h2 h3
    rw [roadStage, if_pos ⟨h1, h2⟩, if_neg (by simp [h3])]
  · intro h
    rcases h with h | h
    · rw [roadStage, if_neg (by simp [h])]
    · rw [roadStage, if_neg (by simp [h])]
  · intro d h
    rcases h with h | h | h <;> rw [distStage, if_neg (by simp [h])]
  · intro d h1 h2 h3
    rw [distStage, if_pos ⟨h1, h2, h3⟩]
  · intro h
    rw [enrichStep, assistStage, if_pos h]
  · intro h
    rw [enrichStep, assistStage, if_neg (by simp [h])]

theorem nav_step_enrichment_witness :
    roadStage ⟨"向北行驶", "学院路", 200, "", ""⟩ = "向北行驶" ++ " (沿" ++ "学院路" ++ ")" :=
  (nav_step_enrichment ⟨"向北行驶", "学院路", 200, "", ""⟩).1 (by decide) (by decide) (by decide)

/-! ### TransitItineraryNarrator (`_format_transit_text`) -/

/-- First bus line of a bus segment (`seg["bus"]["buslines"][0]`), fields via
`.get` (inner stop names default to `起点`/`终点`, `num_stops` to `--`). -/
structure BusLine where
  name : String := ""
  departure_stop : Option String := none
  arrival_stop : Option String := none
  num_stops : Option String := none
deriving DecidableEq

/-- A railway segment (`seg["railway"]`); stop names have no default. -/
structure Railway where
  name : String := ""
  departure_stop : Option String := none
  arrival_stop : Option String := none
deriving DecidableEq

/-- One transit segment; each optional field models the presence (truthiness)
of the corresponding key: `bus` carries the `buslines` list, `walking` the
`int(...)`-converted distance. -/
structure Segment where
  bus : Option (List BusLine) := none
  railway : Option Railway := none
  walking : Option Nat := none
deriving DecidableEq

/-- One transit plan; `cost` models `float(t.get("cost", 0))` for the
integral costs exercised here (Python renders them with a trailing `.0`). -/
structure TransitData where
  duration : Nat := 0
  cost : Nat := 0
  walking_distance : Nat := 0
  segments : List Segment := []
deriving DecidableEq

/-- `name.split('(')[0]`. -/
def beforeParen (s : String) : String :=
  String.mk (s.data.takeWhile (fun c => c ≠ '('))

/-- `busActive` holds when `seg.get("bus") and seg["bus"].get("buslines")` is truthy. -/
def busActive (seg : Segment) : Bool :=
  match seg.bus with
  | some (_ :: _) => true
  | _ => false

/-- `railActive` holds when `seg.get("railway") and seg["railway"].get("name")` is truthy. -/
def railActive (seg : Segment) : Bool :=
  match seg.railway with
  | some r => decide (r.name ≠ "")
  | none => false

/-- Walking branch of the per-segment `elif` chain. -/
def segWalkLines (seg : Segment) : Option String × Option String :=
  match seg.walking with
  | some d => if 50 < d then (none, some ("  • 🚶 步行 " ++ fmtDist d)) else (none, none)
  | none => (none, none)

/-- Per-segment contribution: `(chain entry, detail line)`, following the
`if bus / elif railway / elif walking` chain of `_format_transit_text`. -/
def segLines (seg : Segment) : Option String × Option String :=
  match seg.bus with
  | some (b :: _) =>
    let line := beforeParen b.name
    let dep := b.departure_stop.getD "起点"
    let arr := b.arrival_stop.getD "终点"
    let stops := b.num_stops.getD "--"
    (some line,
     some ("  • 🚌 乘 " ++ line ++ ": " ++ dep ++ " 上车 -> " ++ arr ++ " 下车 (坐" ++ stops ++ "站)"))
  | _ =>
    match seg.railway with
    | some r =>
      if r.name ≠ "" then
        (some r.name,
         some ("  • 🚄 乘 " ++ r.name ++ ": " ++ pyShowOpt r.departure_stop ++ " -> " ++
           pyShowOpt r.arrival_stop))
      else segWalkLines seg
    | none => segWalkLines seg

/-- The four unconditional lines of one plan (separator, header, fare, chain). -/
def transitHeader (idx : Nat) (t : TransitData) : List String :=
  let chain := (t.segments.map segLines).filterMap Prod.fst
  ["",
   "=== 方案 " ++ toString (idx + 1) ++ " (" ++ fmtTime t.duration ++ ") ===",
   "💰 票价: " ++ toString t.cost ++ ".0元 | 🚶 步行: " ++ fmtDist t.walking_distance,
   "📍 路线: " ++ pyJoin " -> " chain]

/-- All lines of one plan: detail lines are added for plan index 0 only. -/
def transitPlanLines (idx : Nat) (t : TransitData) : List String :=
  transitHeader idx t ++
    (if idx = 0 then "📝 详细步骤:" :: (t.segments.map segLines).filterMap Prod.snd else [])

/-- `_format_transit_text(transits)`. -/
def formatTransitText (transits : List TransitData) : String :=
  if transits = [] then "未找到公交方案"
  else
    pyJoin "\n" ("🚌 【公交/地铁导航】(推荐Top3)" ::
      ((transits.take 3).enum.map (fun pr => transitPlanLines pr.1 pr.2)).flatten)

/-- Claim C5: the transit narrator renders at most the first three plans in
upstream order (the output only depends on the first three), renders detail
lines only for the plan at index 0, shows a walking segment in the detail
only when its distance exceeds 50 metres, never puts a walking segment into
the transfer chain, and renders the no-plan text for an empty plan list. -/
theorem transit_narrator_top3_details :
    (formatTransitText [] = "未找到公交方案") ∧
    (∀ ts : List TransitData, formatTransitText ts = formatTransitText (ts.take 3)) ∧
    (∀ (i : Nat) (t : TransitData), i ≠ 0 → transitPlanLines i t = transitHeader i t) ∧
    (∀ t : TransitData, transitPlanLines 0 t =
      transitHeader 0 t ++ "📝 详细步骤:" :: (t.segments.map segLines).filterMap Prod.snd) ∧
    (∀ seg : Segment, busActive seg = false → railActive seg = false →
      (segLines seg).1 = none) ∧
    (∀ (seg : Segment) (d : Nat), busActive seg = false → railActive seg = false →
      seg.walking = some d →
      (50 < d → (segLines seg).2 = some ("  • 🚶 步行 " ++ fmtDist d)) ∧
      (d ≤ 50 → (segLines seg).2 = none)) := by
  have hseg : ∀ seg : Segment, busActive seg = false → railActive seg = false →
      segLines seg = segWalkLines seg := by
    intro seg hb hr
    unfold segLines
    cases hbus : seg.bus with
    | none =>
      cases hrail : seg.railway with
      | none => simp
      | some r =>
        have hr2 : r.name = "" := by simpa [railActive, hbus, hrail] using hr
        simp [hr2]
    | some bl =>
      cases bl with
      | nil =>
        cases hrail : seg.railway with
        | none => simp
        | some r =>
          have hr2 : r.name = "" := by simpa [railActive, hbus, hrail] using hr
          simp [hr2]
      | cons b rest => simp [busActive, hbus] at hb
  refine ⟨rfl, ?_, ?_, ?_, ?_, ?_⟩
  · intro ts
    cases ts with
    | nil => rfl
    | cons a l =>
      unfold formatTransitText
      rw [if_neg (by simp), if_neg (by simp [List.take_cons]), List.take_take]
      norm_num
  · intro i t hi
    unfold transitPlanLines
    rw [if_neg hi, List.append_nil]
  · intro t
    unfold transitPlanLines
    rw [if_pos rfl]
  · intro seg hb hr
    rw [hseg seg hb hr]
    unfold segWalkLines
    cases hw : seg.walking with
    | none => simp
    | some d =>
      by_cases hd : 50 < d
      · simp [hd]
      · simp [hd]
  · intro seg d hb hr hw
    rw [hseg seg hb hr]
    unfold segWalkLines
    constructor
    · intro hd
      simp [hw, hd]
    · intro hd
      have hd2 : ¬ (50 < d) := by omega
      simp [hw, hd2]

theorem transit_narrator_top3_details_witness :
    transitPlanLines 1
        ⟨1800, 3, 600, [⟨none, none, some 800⟩]⟩ =
      transitHeader 1 ⟨1800, 3, 600, [⟨none, none, some 800⟩]⟩ :=
  transit_narrator_top3_details.2.2.1 1 ⟨1800, 3, 600, [⟨none, none, some 800⟩]⟩ (by decide)

/-! ### RouteModeDispatcher (`plan_route`) -/

/-- The sequential alias rewriting at the top of `plan_route`:
`car→driving`, `walk→walking`, `{bike,ride,cycling}→bicycling`,
`{bus,subway}→transit`. -/
def normalizeMode (mode : String) : String :=
  let m1 := if mode = "car" then "driving" else mode
  let m2 := if m1 = "walk" then "walking" else m1
  let m3 := if m2 = "bike" ∨ m2 = "ride" ∨ m2 = "cycling" then "bicycling" else m2
  if m3 = "bus" ∨ m3 = "subway" then "transit" else m3

/-- `mode_config`: mode to (API version, endpoint path). -/
def modeConfig (mode : String) : Option (String × String) :=
  if mode = "driving" then some ("v3", "/direction/driving")
  else if mode = "walking" then some ("v3", "/direction/walking")
  else if mode = "transit" then some ("v3", "/direction/transit/integrated")
  else if mode = "bicycling" then some ("v4", "/direction/bicycling")
  else none

/-- Python truthiness of the optional location string (`not ori_loc`). -/
def truthy : Option String → Bool
  | none => false
  | some s => decide (s ≠ "")

/-- The request `plan_route` issues: host, endpoint and query parameters. -/
structure RouteCall where
  host : String
  url : String
  origin : String
  destination : String
  outputJSON : Bool := false
  extensionsAll : Bool := false
  strategy : Option Int := none
  city : Option String := none
  cityd : Option String := none
deriving DecidableEq

/-- The raw upstream JSON of a route request, fields via `.get`: `status`,
`info` (v3), `errcode`, `errmsg` (v4), `route.paths`, `route.transits`
(v3), `data.paths` (v4). -/
structure RawRoute where
  status : Option String := none
  info : Option String := none
  errcode : Option Int := none
  errmsg : Option String := none
  routePaths : List PathData := []
  routeTransits : List TransitData := []
  dataPaths : List PathData := []
deriving DecidableEq

/-- The `city` argument as passed to `_resolve_location` (`""` is falsy). -/
def cityOpt (city : String) : Option String := if city = "" then none else some city

/-- `plan_route(origin, destination, mode, city, strategy)`.  `hasKey` models
the presence of `AMAP_API_KEY`; the four oracles model the two upstream
resolution attempts for each endpoint; `raw` models the route response.  The
first component is the route request issued (`none` if the function returns
before reaching it). -/
def planRoute (hasKey : Bool) (origin destination mode city : String) (strategy : Int)
    (geoO : Option GeoRecord) (poiO : Option PoiRecord)
    (geoD : Option GeoRecord) (poiD : Option PoiRecord)
    (raw : RawRoute) : Option RouteCall × String :=
  if hasKey = false then (none, "Error: No API Key")
  else
    let m := normalizeMode mode
    match modeConfig m with
    | none => (none, "不支持的模式: " ++ m)
    | some cfg =>
      let ori := (resolveLocation geoO poiO origin (cityOpt city)).1
      let des := (resolveLocation geoD poiD destination (cityOpt city)).1
      if truthy ori.loc = true ∧ truthy des.loc = true then
        let oriLoc := ori.loc.getD ""
        let desLoc := des.loc.getD ""
        let host := if cfg.1 = "v4" then AMAP_API_HOST_V4 else AMAP_API_HOST
        let call : RouteCall :=
          ⟨host, cfg.2, oriLoc, desLoc, cfg.1 = "v3", cfg.1 = "v3",
           if m = "driving" then some 10 else if m = "transit" then some strategy else none,
           if m = "transit" then some (if city = "" then "北京" else city) else none,
           if m = "transit" then some (if city = "" then "北京" else city) else none⟩
        let header := "【路径规划】\n起点: " ++ pyShowOpt ori.name ++ "\n终点: " ++
          pyShowOpt des.name ++ "\n"
        if cfg.1 = "v4" then
          if raw.errcode ≠ some 0 then (some call, "API错误: " ++ pyShowOpt raw.errmsg)
          else
            match raw.dataPaths with
            | p :: _ => (some call, header ++ formatNavText m p)
            | [] => (some call, header ++ "未找到骑行路线")
        else if m = "transit" then
          if raw.status ≠ some "1" then (some call, "API错误: " ++ pyShowOpt raw.info)
          else (some call, header ++ formatTransitText raw.routeTransits)
        else
          if raw.status ≠ some "1" then (some call, "API错误: " ++ pyShowOpt raw.info)
          else
            match raw.routePaths with
            | p :: _ => (some call, header ++ formatNavText m p)
            | [] => (some call, header ++ "未找到" ++ m ++ "路线")
      else (none, "无法定位起点(" ++ origin ++ ")或终点(" ++ destination ++ ")")

theorem normalizeMode_fixed {m : String} (h1 : m ≠ "car") (h2 : m ≠ "walk")
    (h3 : m ≠ "bike") (h4 : m ≠ "ride") (h5 : m ≠ "cycling")
    (h6 : m ≠ "bus") (h7 : m ≠ "subway") : normalizeMode m = m := by
  simp only [normalizeMode]
  rw [if_neg h1, if_neg h2,
    if_neg (show ¬(m = "bike" ∨ m = "ride" ∨ m = "cycling") by simp [h3, h4, h5]),
    if_neg (show ¬(m = "bus" ∨ m = "subway") by simp [h6, h7])]

/-- Claim C8: mode alias normalization is total and idempotent — every alias
maps to its canonical mode, every canonical mode maps to itself, normalizing
twice equals normalizing once, and any mode that is not recognized after
aliasing makes `plan_route` return the terminal error text naming it. -/
theorem mode_alias_normalization :
    (normalizeMode "car" = "driving") ∧ (normalizeMode "walk" = "walking") ∧
    (normalizeMode "bike" = "bicycling") ∧ (normalizeMode "ride" = "bicycling") ∧
    (normalizeMode "cycling" = "bicycling") ∧ (normalizeMode "bus" = "transit") ∧
    (normalizeMode "subway" = "transit") ∧
    (normalizeMode "driving" = "driving") ∧ (normalizeMode "walking" = "walking") ∧
    (normalizeMode "transit" = "transit") ∧ (normalizeMode "bicycling" = "bicycling") ∧
    (∀ m : String, normalizeMode (normalizeMode m) = normalizeMode m) ∧
    (∀ (m origin destination city : String) (strategy : Int)
        (geoO : Option GeoRecord) (poiO : Option PoiRecord)
        (geoD : Option GeoRecord) (poiD : Option PoiRecord) (raw : RawRoute),
      modeConfig (normalizeMode m) = none →
      planRoute true origin destination m city strategy geoO poiO geoD poiD raw =
        (none, "不支持的模式: " ++ normalizeMode m)) := by
  refine ⟨by decide, by decide, by decide, by decide, by decide, by decide, by decide,
    by decide, by decide, by decide, by decide, ?_, ?_⟩
  · intro m
    by_cases h1 : m = "car"
    · subst h1; decide
    by_cases h2 : m = "walk"
    · subst h2; decide
    by_cases h3 : m = "bike"
    · subst h3; decide
    by_cases h4 : m = "ride"
    · subst h4; decide
    by_cases h5 : m = "cycling"
    · subst h5; decide
    by_cases h6 : m = "bus"
    · subst h6; decide
    by_cases h7 : m = "subway"
    · subst h7; decide
    have hf := normalizeMode_fixed h1 h2 h3 h4 h5 h6 h7
    rw [hf]
    exact hf
  · intro m origin destination city strategy geoO poiO geoD poiD raw hcfg
    simp [planRoute, hcfg]

theorem mode_alias_normalization_witness :
    planRoute true "A" "B" "spaceship" "" 0 none none none none
        ⟨none, none, none, none, [], [], []⟩ =
      (none, "不支持的模式: " ++ normalizeMode "spaceship") :=
  mode_alias_normalization.2.2.2.2.2.2.2.2.2.2.2.2 "spaceship" "A" "B" "" 0
    none none none none ⟨none, none, none, none, [], [], []⟩ (by decide)

/-- Claim C9 counterexample: the failure text does NOT identify which side
failed.  With the same origin/destination strings, the run where only the
origin is unresolvable and the run where only the destination is
unresolvable produce the very same output, which names both sides; so no
reader of the text can tell which side failed. -/
theorem resolution_failure_text_ambiguous :
    planRoute true "北京大学" "清华大学" "driving" "" 0
        none none (some ⟨some "116.32,40.00", some "110108", some "清华大学"⟩) none
        ⟨none, none, none, none, [], [], []⟩ =
      planRoute true "北京大学" "清华大学" "driving" "" 0
        (some ⟨some "116.31,39.99", some "110108", some "北京大学"⟩) none none none
        ⟨none, none, none, none, [], [], []⟩ ∧
    (planRoute true "北京大学" "清华大学" "driving" "" 0
        none none (some ⟨some "116.32,40.00", some "110108", some "清华大学"⟩) none
        ⟨none, none, none, none, [], [], []⟩).2 =
      "无法定位起点(北京大学)或终点(清华大学)" ∧
    truthy ((resolveLocation none none "北京大学" (cityOpt "")).1).loc = false ∧
    truthy ((resolveLocation (some ⟨some "116.31,39.99", some "110108", some "北京大学"⟩)
        none "北京大学" (cityOpt "")).1).loc = true := by
  decide

/-- Claim C9 (amended): whenever resolution of the origin or of the
destination fails inside `plan_route` (for a recognized mode), the returned
text is the single message `无法定位起点(origin)或终点(destination)`, which
names both raw inputs but does not distinguish which side failed. -/
theorem resolution_failure_text_names_both
    (origin destination mode city : String) (strategy : Int)
    (geoO : Option GeoRecord) (poiO : Option PoiRecord)
    (geoD : Option GeoRecord) (poiD : Option PoiRecord) (raw : RawRoute)
    (hcfg : (modeConfig (normalizeMode mode)).isSome = true)
    (hfail : truthy ((resolveLocation geoO poiO origin (cityOpt city)).1).loc = false ∨
             truthy ((resolveLocation geoD poiD destination (cityOpt city)).1).loc = false) :
    planRoute true origin destination mode city strategy geoO poiO geoD poiD raw =
      (none, "无法定位起点(" ++ origin ++ ")或终点(" ++ destination ++ ")") := by
  obtain ⟨cfg, hc⟩ := Option.isSome_iff_exists.mp hcfg
  rcases hfail with h | h <;> simp [planRoute, hc, h]

theorem resolution_failure_text_names_both_witness :
    planRoute true "北京大学" "116.41,39.92" "walking" "" 0 none none none none
        ⟨none, none, none, none, [], [], []⟩ =
      (none, "无法定位起点(北京大学)或终点(116.41,39.92)") :=
  resolution_failure_text_names_both "北京大学" "116.41,39.92" "walking" "" 0
    none none none none ⟨none, none, none, none, [], [], []⟩ (by decide)
    (Or.inl (by decide))

/-- Claim C4 counterexample: with mode `car`, coordinate-literal endpoints
and a successful upstream response, the returned text does NOT begin with
`🚗 【driving导航】` — it begins with the `【路径规划】` header the code
prepends. -/
theorem plan_route_car_not_nav_first :
    strStarts "🚗 【driving导航】"
        (planRoute true "116.41,39.92" "116.45,39.95" "car" "" 0 none none none none
          ⟨some "1", none, none, none, [⟨1200, 5000, "2", "0", none, []⟩], [], []⟩).2 = false ∧
    strStarts "【路径规划】"
        (planRoute true "116.41,39.92" "116.45,39.95" "car" "" 0 none none none none
          ⟨some "1", none, none, none, [⟨1200, 5000, "2", "0", none, []⟩], [], []⟩).2 = true := by
  decide

/-- Claim C4 (amended): `plan_route` with mode `car` and coordinate-literal
endpoints normalizes the mode to `driving`, issues the v3
`direction/driving` request with `strategy` fixed to 10 regardless of the
caller-supplied strategy, and on upstream success returns the
`【路径规划】` header (with both endpoints) followed by the driving
narration, which itself begins with `🚗 【driving导航】`. -/
theorem plan_route_car_driving_dispatch
    (origin destination city : String) (strategy : Int)
    (geoO : Option GeoRecord) (poiO : Option PoiRecord)
    (geoD : Option GeoRecord) (poiD : Option PoiRecord)
    (raw : RawRoute) (p : PathData) (rest : List PathData)
    (h1 : matchesCoord origin.data = true) (h2 : matchesCoord destination.data = true)
    (h3 : raw.status = some "1") (h4 : raw.routePaths = p :: rest) :
    planRoute true origin destination "car" city strategy geoO poiO geoD poiD raw =
      (some ⟨AMAP_API_HOST, "/direction/driving", origin, destination, true, true,
        some 10, none, none⟩,
       "【路径规划】\n起点: " ++ origin ++ "\n终点: " ++ destination ++ "\n" ++
         formatNavText "driving" p) ∧
    strStarts "🚗 【driving导航】" (formatNavText "driving" p) = true := by
  have hro := resolveLocation_coord geoO poiO (cityOpt city) h1
  have hrd := resolveLocation_coord geoD poiD (cityOpt city) h2
  have hne1 : origin ≠ "" := matchesCoord_ne_empty h1
  have hne2 : destination ≠ "" := matchesCoord_ne_empty h2
  constructor
  · simp [planRoute, hro, hrd, truthy, hne1, hne2, h3, h4, normalizeMode, modeConfig,
      pyShowOpt, AMAP_API_HOST]
  · have key : ∀ (s1 s2 s3 s4 : String) (tail : List String),
        strStarts s1 (pyJoin "\n" (s1 :: s2 :: s3 :: s4 :: tail)) = true := by
      intro s1 s2 s3 s4 tail
      show strStarts s1 (s1 ++ "\n" ++ pyJoin "\n" (s2 :: s3 :: s4 :: tail)) = true
      rw [String.append_assoc]
      exact strStarts_append _ _
    have h5 : strStarts (navTitle "driving") (formatNavText "driving" p) = true := by
      rw [formatNavText]
      exact key _ _ _ _ _
    rw [show ("🚗 【driving导航】" : String) = navTitle "driving" from by decide]
    exact h5

theorem plan_route_car_driving_dispatch_witness :
    planRoute true "116.41,39.92" "116.45,39.95" "car" "" 7 none none none none
        ⟨some "1", none, none, none, [⟨1200, 5000, "2", "0", none, []⟩], [], []⟩ =
      (some ⟨AMAP_API_HOST, "/direction/driving", "116.41,39.92", "116.45,39.95", true, true,
        some 10, none, none⟩,
       "【路径规划】\n起点: " ++ "116.41,39.92" ++ "\n终点: " ++ "116.45,39.95" ++ "\n" ++
         formatNavText "driving" ⟨1200, 5000, "2", "0", none, []⟩) ∧
    strStarts "🚗 【driving导航】" (formatNavText "driving" ⟨1200, 5000, "2", "0", none, []⟩) =
      true :=
  plan_route_car_driving_dispatch "116.41,39.92" "116.45,39.95" "" 7 none none none none
    ⟨some "1", none, none, none, [⟨1200, 5000, "2", "0", none, []⟩], [], []⟩
    ⟨1200, 5000, "2", "0", none, []⟩ [] (by decide) (by decide) rfl rfl

/-- Claim C7: `plan_route` normalizes the two response envelopes into one
success/failure shape.  For a v3 mode (driving, walking, transit), upstream
`status ≠ "1"` yields the error text carrying `info`; for the v4 bicycling
mode, `errcode ≠ 0` yields the error text carrying `errmsg`; a successful
driving/walking/bicycling response is narrated from the first path of the
returned list; a successful response with an empty path list yields the
no-route text appended to the header — not an error. -/
theorem plan_route_envelope_normalization
    (origin destination city : String) (strategy : Int)
    (geoO : Option GeoRecord) (poiO : Option PoiRecord)
    (geoD : Option GeoRecord) (poiD : Option PoiRecord)
    (h1 : matchesCoord origin.data = true) (h2 : matchesCoord destination.data = true) :
    let run := fun (mode : String) (raw : RawRoute) =>
      planRoute true origin destination mode city strategy geoO poiO geoD poiD raw
    let header := "【路径规划】\n起点: " ++ origin ++ "\n终点: " ++ destination ++ "\n"
    (∀ raw : RawRoute, raw.status ≠ some "1" →
      (run "driving" raw).2 = "API错误: " ++ pyShowOpt raw.info ∧
      (run "walking" raw).2 = "API错误: " ++ pyShowOpt raw.info ∧
      (run "transit" raw).2 = "API错误: " ++ pyShowOpt raw.info) ∧
    (∀ raw : RawRoute, raw.errcode ≠ some 0 →
      (run "bicycling" raw).2 = "API错误: " ++ pyShowOpt raw.errmsg) ∧
    (∀ (raw : RawRoute) (p : PathData) (rest : List PathData),
      raw.status = some "1" → raw.routePaths = p :: rest →
      (run "driving" raw).2 = header ++ formatNavText "driving" p ∧
      (run "walking" raw).2 = header ++ formatNavText "walking" p) ∧
    (∀ (raw : RawRoute) (p : PathData) (rest : List PathData),
      raw.errcode = some 0 → raw.dataPaths = p :: rest →
      (run "bicycling" raw).2 = header ++ formatNavText "bicycling" p) ∧
    (∀ raw : RawRoute, raw.status = some "1" → raw.routePaths = [] →
      (run "driving" raw).2 = header ++ "未找到driving路线" ∧
      (run "walking" raw).2 = header ++ "未找到walking路线") ∧
    (∀ raw : RawRoute, raw.errcode = some 0 → raw.dataPaths = [] →
      (run "bicycling" raw).2 = header ++ "未找到骑行路线") := by
  have hro := fun c => resolveLocation_coord geoO poiO c h1
  have hrd := fun c => resolveLocation_coord geoD poiD c h2
  have hne1 : origin ≠ "" := matchesCoord_ne_empty h1
  have hne2 : destination ≠ "" := matchesCoord_ne_empty h2
  refine ⟨?_, ?_, ?_, ?_, ?_, ?_⟩
  · intro raw hs
    refine ⟨?_, ?_, ?_⟩ <;>
      simp [planRoute, normalizeMode, modeConfig, hro, hrd, truthy, hne1, hne2, hs]
  · intro raw he
    simp [planRoute, normalizeMode, modeConfig, hro, hrd, truthy, hne1, hne2, he]
  · intro raw p rest hs hp
    refine ⟨?_, ?_⟩ <;>
      simp [planRoute, normalizeMode, modeConfig, hro, hrd, truthy, hne1, hne2, hs, hp,
        pyShowOpt]
  · intro raw p rest he hp
    simp [planRoute, normalizeMode, modeConfig, hro, hrd, truthy, hne1, hne2, he, hp,
      pyShowOpt]
  · intro raw hs hp
    have hd : ("未找到" ++ ("driving" ++ "路线") : String) = "未找到driving路线" := by decide
    have hw : ("未找到" ++ ("walking" ++ "路线") : String) = "未找到walking路线" := by decide
    refine ⟨?_, ?_⟩ <;>
      simp [planRoute, normalizeMode, modeConfig, hro, hrd, truthy, hne1, hne2, hs, hp,
        pyShowOpt, String.append_assoc, hd, hw]
  · intro raw he hp
    simp [planRoute, normalizeMode, modeConfig, hro, hrd, truthy, hne1, hne2, he, hp,
      pyShowOpt]

theorem plan_route_envelope_normalization_witness :
    (planRoute true "116.41,39.92" "116.45,39.95" "driving" "" 0 none none none none
        ⟨some "0", some "USERKEY_PLAT_NOMATCH", none, none, [], [], []⟩).2 =
      "API错误: " ++ pyShowOpt (some "USERKEY_PLAT_NOMATCH") :=
  ((plan_route_envelope_normalization "116.41,39.92" "116.45,39.95" "" 0 none none none none
      (by decide) (by decide)).1
    ⟨some "0", some "USERKEY_PLAT_NOMATCH", none, none, [], [], []⟩ (by decide)).1

/-! ### PoiSearchDispatcher (`poi_search`)

The mode-selection ladder (lines 323–369 of `amap.py`): each branch of the
`if/elif` chain picks an endpoint and a parameter set.  We embed the chosen
request as one constructor per branch, carrying exactly the parameters the
branch puts into `params` (beyond the constant key/output/extensions). -/

/-- The request `poi_search` prepares: one constructor per search mode. -/
inductive PoiRequest where
  | detail (id : String) (searchMode : String)
  | polygonReq (polygon keywords : String) (offset page : Int) (searchMode : String)
  | aroundReq (location keywords : String) (radius : Int) (sortrule : String)
      (offset page : Int) (searchMode : String)
  | textReq (keywords : String) (offset page : Int) (city : Option String)
      (citylimit : Option String) (searchMode : String)
deriving DecidableEq

/-- Endpoint path determined by the selected mode. -/
def PoiRequest.url : PoiRequest → String
  | .detail .. => "/place/detail"
  | .polygonReq .. => "/place/polygon"
  | .aroundReq .. => "/place/around"
  | .textReq .. => "/place/text"

/-- The mode-selection and parameter-assembly stage of `poi_search` (the
part before the HTTP request), with the Python signature's defaults. -/
def poiSearchSelect (keywords : String := "") (city : String := "") (center : String := "")
    (radius : Int := 3000) (polygon : String := "") (poi_id : String := "")
    (limit : Int := 10) : Except String PoiRequest :=
  if poi_id ≠ "" then
    .ok (.detail poi_id ("ID查询(" ++ poi_id ++ ")"))
  else if polygon ≠ "" then
    if keywords = "" then .error "❌ 错误: 多边形搜索需要 keywords。"
    else .ok (.polygonReq polygon keywords limit 1 "多边形区域搜索")
  else if center ≠ "" then
    if keywords = "" then .error "❌ 错误: 周边搜索需要 keywords。"
    else .ok (.aroundReq center keywords radius "distance" limit 1
      ("周边" ++ toString radius ++ "米"))
  else if keywords ≠ "" then
    .ok (.textReq keywords limit 1 (if city ≠ "" then some city else none)
      (if city ≠ "" then some "true" else none)
      ("城市(" ++ (if city = "" then "全国" else city) ++ ")"))
  else .error "❌ 错误: 请至少提供 keywords, center, polygon 或 poi_id 其中之一。"

/-- Claim C1: `poi_search` selects exactly one of the four search modes by
the fixed priority order id > polygon > around > text; a non-empty `poi_id`
wins regardless of the other parameters; polygon and proximity search
require `keywords` (terminal error otherwise); proximity search uses the
caller radius, defaulting to 3000; with no qualifying parameter the result
is the terminal at-least-one-parameter error — and that error is never
produced when a qualifying parameter is present. -/
theorem poi_search_mode_priority (keywords city center polygon poi_id : String)
    (radius limit : Int) :
    (poi_id ≠ "" →
      poiSearchSelect keywords city center radius polygon poi_id limit =
        .ok (.detail poi_id ("ID查询(" ++ poi_id ++ ")"))) ∧
    (poi_id = "" → polygon ≠ "" → keywords = "" →
      poiSearchSelect keywords city center radius polygon poi_id limit =
        .error "❌ 错误: 多边形搜索需要 keywords。") ∧
    (poi_id = "" → polygon ≠ "" → keywords ≠ "" →
      poiSearchSelect keywords city center radius polygon poi_id limit =
        .ok (.polygonReq polygon keywords limit 1 "多边形区域搜索")) ∧
    (poi_id = "" → polygon = "" → center ≠ "" → keywords = "" →
      poiSearchSelect keywords city center radius polygon poi_id limit =
        .error "❌ 错误: 周边搜索需要 keywords。") ∧
    (poi_id = "" → polygon = "" → center ≠ "" → keywords ≠ "" →
      poiSearchSelect keywords city center radius polygon poi_id limit =
        .ok (.aroundReq center keywords radius "distance" limit 1
          ("周边" ++ toString radius ++ "米"))) ∧
    (poi_id = "" → polygon = "" → center = "" → keywords ≠ "" →
      poiSearchSelect keywords city center radius polygon poi_id limit =
        .ok (.textReq keywords limit 1 (if city ≠ "" then some city else none)
          (if city ≠ "" then some "true" else none)
          ("城市(" ++ (if city = "" then "全国" else city) ++ ")"))) ∧
    (poi_id = "" → polygon = "" → center = "" → keywords = "" →
      poiSearchSelect keywords city center radius polygon poi_id limit =
        .error "❌ 错误: 请至少提供 keywords, center, polygon 或 poi_id 其中之一。") ∧
    ((poi_id ≠ "" ∨ polygon ≠ "" ∨ center ≠ "" ∨ keywords ≠ "") →
      poiSearchSelect keywords city center radius polygon poi_id limit ≠
        .error "❌ 错误: 请至少提供 keywords, center, polygon 或 poi_id 其中之一。") ∧
    (poiSearchSelect keywords city center =
      poiSearchSelect keywords city center 3000 "" "" 10) := by
  refine ⟨?_, ?_, ?_, ?_, ?_, ?_, ?_, ?_, rfl⟩
  · intro h1
    simp [poiSearchSelect, h1]
  · intro h1 h2 h3
    simp [poiSearchSelect, h1, h2, h3]
  · intro h1 h2 h3
    simp [poiSearchSelect, h1, h2, h3]
  · intro h1 h2 h3 h4
    simp [poiSearchSelect, h1, h2, h3, h4]
  · intro h1 h2 h3 h4
    simp [poiSearchSelect, h1, h2, h3, h4]
  · intro h1 h2 h3 h4
    simp [poiSearchSelect, h1, h2, h3, h4]
  · intro h1 h2 h3 h4
    simp [poiSearchSelect, h1, h2, h3, h4]
  · intro hq
    by_cases hid : poi_id = ""
    · by_cases hpg : polygon = ""
      · by_cases hct : center = ""
        · by_cases hkw : keywords = ""
          · exfalso
            rcases hq with h | h | h | h <;> contradiction
          · simp [poiSearchSelect, hid, hpg, hct, hkw]
        · by_cases hkw : keywords = "" <;> simp [poiSearchSelect, hid, hpg, hct, hkw]
      · by_cases hkw : keywords = "" <;> simp [poiSearchSelect, hid, hpg, hkw]
    · simp [poiSearchSelect, hid]

theorem poi_search_mode_priority_witness :
    poiSearchSelect "anything" "" "116.4,39.9" 3000 "" "B0FFKEPXS1" 10 =
      .ok (.detail "B0FFKEPXS1" ("ID查询(" ++ "B0FFKEPXS1" ++ ")")) :=
  (poi_search_mode_priority "anything" "" "116.4,39.9" "" "B0FFKEPXS1" 3000 10).1 (by decide)

end Omnara
